import Mathlib

/-!
# Verification of the CQDAM throughput-model analysis core

Shallow embedding, over `ℚ`, of the model-fitting and invariant-validation
logic of `analysis/fit-throughput-model.py` and `analysis/validate-invariants.py`.
The CSV reading / filename parsing is out-of-scope I/O glue: the fitter is
modelled as operating on the extracted observation records
`(pipeline_depth, rps[, p50_latency_ms])`.

External library functions (`numpy.sqrt` and `scipy.stats.t.ppf`) are not part
of the repository; they are modelled as function parameters (`sqrtQ`, `tCrit`)
of the fitter, and theorems assume only the properties of them that the claims
need (nonnegativity on nonnegative inputs, nonnegativity of the critical value).
-/

/-- One benchmark observation record, as extracted from a CSV file:
the pipeline depth `P<d>` from the filename, the `rps` column (ops/sec),
and the optional `p50_latency_ms` column (milliseconds). -/
structure Observation where
  pipeline_depth : ℕ
  rps : ℚ
  p50_latency_ms : Option ℚ
deriving DecidableEq, Repr

/-- The `results` dict built by `fit_batched_service_model`.
`Tmax_Mops_s = none` stands for the `float('inf')` sentinel. -/
structure FitResult where
  t0_us_per_batch : ℚ
  t1_ns_per_op : ℚ
  r_squared : ℚ
  t0_confidence_interval : ℚ × ℚ
  t1_confidence_interval : ℚ × ℚ
  Tmax_Mops_s : Option ℚ
  data_points : ℕ
  raw_data : List (ℚ × ℚ)
deriving DecidableEq, Repr

/-- `data_points`: the `(p, throughput)` pairs the fitter collects,
one per observation record. -/
def dataPoints (obs : List Observation) : List (ℕ × ℚ) :=
  obs.map fun o => (o.pipeline_depth, o.rps)

/-- Lexicographic order on `(p, throughput)` tuples: Python's tuple `<=`,
used by `data_points.sort()`. -/
def tupleLe (a b : ℕ × ℚ) : Prop :=
  a.1 < b.1 ∨ (a.1 = b.1 ∧ a.2 ≤ b.2)

instance : DecidableRel tupleLe := fun a b =>
  inferInstanceAs (Decidable (a.1 < b.1 ∨ (a.1 = b.1 ∧ a.2 ≤ b.2)))

instance : IsTotal (ℕ × ℚ) tupleLe :=
  ⟨fun a b => by
    unfold tupleLe
    rcases Nat.lt_trichotomy a.1 b.1 with h | h | h
    · exact Or.inl (Or.inl h)
    · rcases le_total a.2 b.2 with h2 | h2
      · exact Or.inl (Or.inr ⟨h, h2⟩)
      · exact Or.inr (Or.inr ⟨h.symm, h2⟩)
    · exact Or.inr (Or.inl h)⟩

instance : IsTrans (ℕ × ℚ) tupleLe :=
  ⟨fun a b c hab hbc => by
    unfold tupleLe at *
    rcases hab with h1 | ⟨h1, h1'⟩ <;> rcases hbc with h2 | ⟨h2, h2'⟩
    · exact Or.inl (h1.trans h2)
    · exact Or.inl (h2 ▸ h1)
    · exact Or.inl (h1 ▸ h2)
    · exact Or.inr ⟨h1.trans h2, h1'.trans h2'⟩⟩

instance : IsAntisymm (ℕ × ℚ) tupleLe :=
  ⟨fun a b hab hba => by
    unfold tupleLe at *
    rcases hab with h1 | ⟨h1, h1'⟩ <;> rcases hba with h2 | ⟨h2, h2'⟩
    · exact absurd (h1.trans h2) (lt_irrefl _)
    · exact absurd h1 (h2 ▸ lt_irrefl _)
    · exact absurd h2 (h1 ▸ lt_irrefl _)
    · exact Prod.ext h1 (le_antisymm h1' h2')⟩

/-- `data_points.sort()`: sort the pairs by the lexicographic tuple order.
(Python's sort is modelled by insertion sort; any sorting algorithm produces
the same list, the sorted permutation being unique for a total antisymmetric
order.) -/
def sortPoints (l : List (ℕ × ℚ)) : List (ℕ × ℚ) :=
  l.insertionSort tupleLe

/-- The linearized variable `y = p / T` (seconds per batch). -/
def yLin (q : ℕ × ℚ) : ℚ := (q.1 : ℚ) / q.2

/-- The regression abscissae `x = p`. -/
def xVals (s : List (ℕ × ℚ)) : List ℚ := s.map fun q => (q.1 : ℚ)

/-- The regression ordinates `y = p / T`. -/
def yVals (s : List (ℕ × ℚ)) : List ℚ := s.map yLin

/-- `np.mean(x)`. -/
def xMean (s : List (ℕ × ℚ)) : ℚ := (xVals s).sum / (s.length : ℚ)

/-- `np.mean(y)`. -/
def yMean (s : List (ℕ × ℚ)) : ℚ := (yVals s).sum / (s.length : ℚ)

/-- `sxx = Σ (x - x̄)²`. -/
def sxx (s : List (ℕ × ℚ)) : ℚ :=
  (s.map fun q => ((q.1 : ℚ) - xMean s) ^ 2).sum

/-- `Σ (x - x̄)(y - ȳ)`, the numerator of the OLS slope. -/
def sxy (s : List (ℕ × ℚ)) : ℚ :=
  (s.map fun q => ((q.1 : ℚ) - xMean s) * (yLin q - yMean s)).sum

/-- The OLS slope `t1` (seconds/op): `np.polyfit(x, y, 1)` first coefficient,
via the closed-form normal-equations solution. -/
def t1_sec (s : List (ℕ × ℚ)) : ℚ := sxy s / sxx s

/-- The OLS intercept `t0` (seconds/batch): `ȳ - slope·x̄`. -/
def t0_sec (s : List (ℕ × ℚ)) : ℚ := yMean s - t1_sec s * xMean s

/-- `ss_res = Σ (y - ŷ)²` with `ŷ = t0 + t1·x`, on the linearized scale. -/
def ssRes (s : List (ℕ × ℚ)) : ℚ :=
  (s.map fun q => (yLin q - (t0_sec s + t1_sec s * (q.1 : ℚ))) ^ 2).sum

/-- `ss_tot = Σ (y - ȳ)²`. -/
def ssTot (s : List (ℕ × ℚ)) : ℚ :=
  (s.map fun q => (yLin q - yMean s) ^ 2).sum

/-- `r_squared = 1 - ss_res / ss_tot`. -/
def rSquared (s : List (ℕ × ℚ)) : ℚ := 1 - ssRes s / ssTot s

/-- `mse = ss_res / (n - 2)`. -/
def mse (s : List (ℕ × ℚ)) : ℚ := ssRes s / ((s.length : ℚ) - 2)

/-- `se_t1_sec = sqrt(mse / sxx)`; `sqrtQ` models `np.sqrt`. -/
def se_t1_sec (sqrtQ : ℚ → ℚ) (s : List (ℕ × ℚ)) : ℚ :=
  sqrtQ (mse s / sxx s)

/-- `se_t0_sec = sqrt(mse · (1/n + x̄²/sxx))`; `sqrtQ` models `np.sqrt`. -/
def se_t0_sec (sqrtQ : ℚ → ℚ) (s : List (ℕ × ℚ)) : ℚ :=
  sqrtQ (mse s * (1 / (s.length : ℚ) + (xMean s) ^ 2 / sxx s))

/-- `fit_batched_service_model` (analysis/fit-throughput-model.py, lines 18-94),
on the already-extracted `(p, throughput)` records.  `sqrtQ` models `np.sqrt`
and `tCrit` models `df ↦ scipy.stats.t.ppf(0.975, df)`.  Returns `none`
(Python `None`) when fewer than 5 data points are supplied; otherwise sorts
the points by tuple order and produces the results record. -/
def fit_batched_service_model (sqrtQ : ℚ → ℚ) (tCrit : ℕ → ℚ)
    (obs : List Observation) : Option FitResult :=
  let pts := dataPoints obs
  if pts.length < 5 then none
  else
    let s := sortPoints pts
    let t0_us := t0_sec s * 1000000
    let t1_ns := t1_sec s * 1000000000
    let tcv := tCrit (s.length - 2)
    some
      { t0_us_per_batch := t0_us
        t1_ns_per_op := t1_ns
        r_squared := rSquared s
        t0_confidence_interval :=
          (t0_us - tcv * se_t0_sec sqrtQ s * 1000000,
           t0_us + tcv * se_t0_sec sqrtQ s * 1000000)
        t1_confidence_interval :=
          (t1_ns - tcv * se_t1_sec sqrtQ s * 1000000000,
           t1_ns + tcv * se_t1_sec sqrtQ s * 1000000000)
        Tmax_Mops_s :=
          if 0 < t1_sec s then some (1 / (t1_sec s * 1000000)) else none
        data_points := pts.length
        raw_data := s.map fun q => ((q.1 : ℚ), q.2) }

/-- One recorded point of the pipeline-closure check: `(p, lhs, rhs)` with
`lhs = T · p50_s` and `rhs = C · p`. -/
def closurePoint (C : ℚ) (o : Observation) (ms : ℚ) : ℕ × ℚ × ℚ :=
  (o.pipeline_depth, o.rps * (ms / 1000), C * (o.pipeline_depth : ℚ))

/-- The loop of `validate_pipeline_closure`: walk the records in order,
skip those without latency data, and classify the rest into
`(valid_points, violations)` by `lhs ≤ rhs`. -/
def closureScan (C : ℚ) : List Observation → List (ℕ × ℚ × ℚ) × List (ℕ × ℚ × ℚ)
  | [] => ([], [])
  | o :: rest =>
    let acc := closureScan C rest
    match o.p50_latency_ms with
    | none => acc
    | some ms =>
      if o.rps * (ms / 1000) ≤ C * (o.pipeline_depth : ℚ) then
        (closurePoint C o ms :: acc.1, acc.2)
      else
        (acc.1, closurePoint C o ms :: acc.2)

/-- `validate_pipeline_closure` (analysis/validate-invariants.py, lines 18-56):
returns `(len(violations) == 0, valid_points)`. -/
def validate_pipeline_closure (obs : List Observation) (C : ℚ) :
    Bool × List (ℕ × ℚ × ℚ) :=
  ((closureScan C obs).2.length == 0, (closureScan C obs).1)

/-- The loop of `validate_syscall_invariant`: the theoretical
`(p, 2/(C·p))` values, in input order. -/
def syscallCurve (C : ℚ) : List ℕ → List (ℕ × ℚ)
  | [] => []
  | p :: rest => (p, 2 / (C * (p : ℚ))) :: syscallCurve C rest

/-- `validate_syscall_invariant` (analysis/validate-invariants.py, lines 58-72):
always returns `True` together with the theoretical curve. -/
def validate_syscall_invariant (p_values : List ℕ) (C : ℚ) :
    Bool × List (ℕ × ℚ) :=
  (true, syscallCurve C p_values)

/-- `validate_cycles_per_op_band` (analysis/validate-invariants.py, lines
74-87): ignores its input and returns `True` with the estimate
`69.6 * 3.5` hardcoded from the paper values. -/
def validate_cycles_per_op_band (_csv_files : List Observation) : Bool × ℚ :=
  (true, (69.6 : ℚ) * 3.5)

/-! Concrete datasets and external-routine stand-ins used by witnesses and
counterexamples. -/

/-- `np.sqrt` stand-in used for concrete witnesses (identity map — it maps
nonnegative rationals to nonnegative rationals, the only property used). -/
def sqId : ℚ → ℚ := id

/-- `scipy.stats.t.ppf(0.975, ·)` stand-in used for concrete witnesses
(constant 2 — nonnegative, the only property used). -/
def tcTwo : ℕ → ℚ := fun _ => 2

/-- Five observations with `T = p`: the linearized variable is constant 1. -/
def obsLinear : List Observation :=
  [⟨1, 1, none⟩, ⟨2, 2, none⟩, ⟨3, 3, none⟩, ⟨4, 4, none⟩, ⟨5, 5, none⟩]

/-- The fit of `obsLinear`: slope 0, intercept 1 second. -/
def fitLinearR : FitResult :=
  { t0_us_per_batch := 1000000, t1_ns_per_op := 0, r_squared := 1,
    t0_confidence_interval := (1000000, 1000000),
    t1_confidence_interval := (0, 0),
    Tmax_Mops_s := none, data_points := 5,
    raw_data := [(1, 1), (2, 2), (3, 3), (4, 4), (5, 5)] }

/-- Five observations with `T = 1`: the linearized variable is `y = p`. -/
def obsConst : List Observation :=
  [⟨1, 1, none⟩, ⟨2, 1, none⟩, ⟨3, 1, none⟩, ⟨4, 1, none⟩, ⟨5, 1, none⟩]

/-- The fit of `obsConst`: slope 1 second/op, intercept 0. -/
def fitConstR : FitResult :=
  { t0_us_per_batch := 0, t1_ns_per_op := 1000000000, r_squared := 1,
    t0_confidence_interval := (0, 0),
    t1_confidence_interval := (1000000000, 1000000000),
    Tmax_Mops_s := some (1 / 1000000), data_points := 5,
    raw_data := [(1, 1), (2, 1), (3, 1), (4, 1), (5, 1)] }

/-- Five observations all at pipeline depth 7: a single distinct depth. -/
def obsDup : List Observation :=
  [⟨7, 1, none⟩, ⟨7, 2, none⟩, ⟨7, 3, none⟩, ⟨7, 4, none⟩, ⟨7, 5, none⟩]

/-- What the closure loop records for one observation: `none` when the record
is skipped (no latency data) or satisfies the bound, the `(p, lhs, rhs)`
triple when it violates the bound. -/
def closureViolation (C : ℚ) (o : Observation) : Option (ℕ × ℚ × ℚ) :=
  match o.p50_latency_ms with
  | none => none
  | some ms =>
    if o.rps * (ms / 1000) ≤ C * (o.pipeline_depth : ℚ) then none
    else some (o.pipeline_depth, o.rps * (ms / 1000), C * (o.pipeline_depth : ℚ))

/-- The `raw_data` listing of a fit outcome (empty for a failed fit). -/
def rawDataOf : Option FitResult → List (ℚ × ℚ)
  | some r => r.raw_data
  | none => []

/-- A reordering of `obsLinear`. -/
def obsShuffled : List Observation :=
  [⟨5, 5, none⟩, ⟨3, 3, none⟩, ⟨1, 1, none⟩, ⟨4, 4, none⟩, ⟨2, 2, none⟩]

/-! ## Unfolding helpers for the fitter -/

/-- With fewer than 5 collected data points the fitter returns `None`. -/
theorem fit_eq_none (sqrtQ : ℚ → ℚ) (tCrit : ℕ → ℚ) (obs : List Observation)
    (h : obs.length < 5) :
    fit_batched_service_model sqrtQ tCrit obs = none := by
  have h' : (dataPoints obs).length < 5 := by simpa [dataPoints] using h
  simp only [fit_batched_service_model]
  rw [if_pos h']

/-- With at least 5 collected data points the fitter returns the results
record assembled from the sorted point list. -/
theorem fit_eq_some (sqrtQ : ℚ → ℚ) (tCrit : ℕ → ℚ) (obs : List Observation)
    (h : ¬ obs.length < 5) :
    fit_batched_service_model sqrtQ tCrit obs = some
      { t0_us_per_batch := t0_sec (sortPoints (dataPoints obs)) * 1000000
        t1_ns_per_op := t1_sec (sortPoints (dataPoints obs)) * 1000000000
        r_squared := rSquared (sortPoints (dataPoints obs))
        t0_confidence_interval :=
          (t0_sec (sortPoints (dataPoints obs)) * 1000000 -
             tCrit ((sortPoints (dataPoints obs)).length - 2) *
               se_t0_sec sqrtQ (sortPoints (dataPoints obs)) * 1000000,
           t0_sec (sortPoints (dataPoints obs)) * 1000000 +
             tCrit ((sortPoints (dataPoints obs)).length - 2) *
               se_t0_sec sqrtQ (sortPoints (dataPoints obs)) * 1000000)
        t1_confidence_interval :=
          (t1_sec (sortPoints (dataPoints obs)) * 1000000000 -
             tCrit ((sortPoints (dataPoints obs)).length - 2) *
               se_t1_sec sqrtQ (sortPoints (dataPoints obs)) * 1000000000,
           t1_sec (sortPoints (dataPoints obs)) * 1000000000 +
             tCrit ((sortPoints (dataPoints obs)).length - 2) *
               se_t1_sec sqrtQ (sortPoints (dataPoints obs)) * 1000000000)
        Tmax_Mops_s :=
          if 0 < t1_sec (sortPoints (dataPoints obs)) then
            some (1 / (t1_sec (sortPoints (dataPoints obs)) * 1000000))
          else none
        data_points := (dataPoints obs).length
        raw_data := (sortPoints (dataPoints obs)).map fun q => ((q.1 : ℚ), q.2) } := by
  have h' : ¬ (dataPoints obs).length < 5 := by simpa [dataPoints] using h
  simp only [fit_batched_service_model]
  rw [if_neg h']

/-! ## Concrete datasets and evaluations -/

theorem fit_obsLinear :
    fit_batched_service_model sqId tcTwo obsLinear = some fitLinearR := by
  have hs : sortPoints (dataPoints obsLinear) = [(1, 1), (2, 2), (3, 3), (4, 4), (5, 5)] := by
    decide
  rw [fit_eq_some sqId tcTwo obsLinear (by decide), hs]
  norm_num [fitLinearR, t1_sec, t0_sec, sxy, sxx, xMean, yMean, xVals, yVals, yLin,
    rSquared, ssRes, ssTot, mse, se_t0_sec, se_t1_sec, sqId, tcTwo, dataPoints, obsLinear,
    Prod.ext_iff]

theorem fit_obsConst :
    fit_batched_service_model sqId tcTwo obsConst = some fitConstR := by
  have hs : sortPoints (dataPoints obsConst) = [(1, 1), (2, 1), (3, 1), (4, 1), (5, 1)] := by
    decide
  rw [fit_eq_some sqId tcTwo obsConst (by decide), hs]
  norm_num [fitConstR, t1_sec, t0_sec, sxy, sxx, xMean, yMean, xVals, yVals, yLin,
    rSquared, ssRes, ssTot, mse, se_t0_sec, se_t1_sec, sqId, tcTwo, dataPoints, obsConst,
    Prod.ext_iff]

/-! ## C3 — insufficient-data handling -/

/-- C3 counterexample: `obsDup` has exactly one distinct pipeline depth, yet
the fitter does not fail on it — it produces a fit result, because the
source guards only on the number of collected points (`len(data_points) < 5`),
never on the number of distinct depths. -/
theorem single_depth_still_fits :
    (obsDup.map Observation.pipeline_depth).dedup.length = 1 ∧
      (fit_batched_service_model sqId tcTwo obsDup).isSome = true := by
  constructor
  · decide
  · rw [fit_eq_some sqId tcTwo obsDup (by decide)]
    rfl

/-- C3 (amended): the fitter fails with an explicit `None` result exactly when
fewer than 5 observations are supplied; the number of distinct pipeline
depths is never checked. -/
theorem fit_none_iff_fewer_than_five (sqrtQ : ℚ → ℚ) (tCrit : ℕ → ℚ)
    (obs : List Observation) :
    fit_batched_service_model sqrtQ tCrit obs = none ↔ obs.length < 5 := by
  by_cases h : obs.length < 5
  · simp [fit_eq_none sqrtQ tCrit obs h, h]
  · simp [fit_eq_some sqrtQ tCrit obs h, h]

/-! ## C4 — cycles-per-op check -/

/-- C4 counterexample: `obsLinear` and `obsConst` fit to different `t1`
values (0 ns/op versus 10⁹ ns/op), yet the cycles-per-op check reports the
same estimate for both — it ignores the fitted `t1` entirely. -/
theorem cycles_per_op_ignores_fit :
    (fit_batched_service_model sqId tcTwo obsLinear).map FitResult.t1_ns_per_op ≠
      (fit_batched_service_model sqId tcTwo obsConst).map FitResult.t1_ns_per_op ∧
    validate_cycles_per_op_band obsLinear = validate_cycles_per_op_band obsConst := by
  constructor
  · rw [fit_obsLinear, fit_obsConst]
    simp [fitLinearR, fitConstR]
  · rfl

/-- C4 (amended): the cycles-per-op check is a constant function — for every
input it reports `passed` with the hardcoded paper estimate
`69.6 ns/op × 3.5 GHz = 243.6` cycles/op, independent of any fitted `t1` or
supplied clock frequency. -/
theorem cycles_per_op_constant (obs : List Observation) :
    validate_cycles_per_op_band obs = (true, 243.6) := by
  norm_num [validate_cycles_per_op_band]

/-! ## C8 — syscall-budget check -/

theorem syscallCurve_eq_map (C : ℚ) (ps : List ℕ) :
    syscallCurve C ps = ps.map fun p => ((p, 2 / (C * (p : ℚ))) : ℕ × ℚ) := by
  induction ps with
  | nil => rfl
  | cons p rest ih => simp [syscallCurve, ih]

/-- C8: for every caller-supplied sequence of pipeline depths and concurrency
value, the syscall-budget check reports `passed` unconditionally, and the
curve it returns is exactly the theoretical `syscalls_per_op = 2/(C·p)` value
for each depth, in order. -/
theorem syscall_budget_check (p_values : List ℕ) (C : ℚ) :
    validate_syscall_invariant p_values C =
      (true, p_values.map fun p => ((p, 2 / (C * (p : ℚ))) : ℕ × ℚ)) := by
  unfold validate_syscall_invariant
  rw [syscallCurve_eq_map]

/-! ## C9 — determinism -/

/-- C9: the fitter is deterministic — it is a pure function of the observation
sequence (and of the two external numeric routines), so two runs on the
identical input produce identical `FitResult` values; the embedding carries
no hidden state between runs, mirroring the source computation, which reads
nothing but its arguments and uses no randomness. -/
theorem fitter_deterministic (sqrtQ : ℚ → ℚ) (tCrit : ℕ → ℚ)
    (obs : List Observation) :
    fit_batched_service_model sqrtQ tCrit obs =
      fit_batched_service_model sqrtQ tCrit obs := rfl

/-! ## C2 — pipeline-closure check -/

theorem closureScan_snd (C : ℚ) (obs : List Observation) :
    (closureScan C obs).2 = obs.filterMap (closureViolation C) := by
  induction obs with
  | nil => rfl
  | cons o rest ih =>
    cases hp : o.p50_latency_ms with
    | none => simp [closureScan, closureViolation, hp, ih]
    | some ms =>
      by_cases hle : o.rps * (ms / 1000) ≤ C * (o.pipeline_depth : ℚ) <;>
        simp [closureScan, closureViolation, closurePoint, hp, hle, ih]

theorem closureViolation_eq_none_iff (C : ℚ) (o : Observation) :
    closureViolation C o = none ↔
      ∀ ms ∈ o.p50_latency_ms,
        o.rps * (ms / 1000) ≤ C * (o.pipeline_depth : ℚ) := by
  cases hp : o.p50_latency_ms with
  | none => simp [closureViolation, hp]
  | some ms' =>
    by_cases hle : o.rps * (ms' / 1000) ≤ C * (o.pipeline_depth : ℚ) <;>
      simp [closureViolation, hp, hle]

/-- C2: for every observation collection and concurrency value `C`, the
pipeline-closure check passes iff no latency-bearing observation has
`throughput · p50_s` exceeding `C · p`; the recorded violation list is
exactly the `(p, lhs, rhs)` triple of each violating latency-bearing
observation, in order, and observations without latency data contribute
nothing (they are skipped, not counted as failures). -/
theorem pipeline_closure_check (obs : List Observation) (C : ℚ) :
    ((validate_pipeline_closure obs C).1 = true ↔
      ∀ o ∈ obs, ∀ ms ∈ o.p50_latency_ms,
        o.rps * (ms / 1000) ≤ C * (o.pipeline_depth : ℚ)) ∧
    (closureScan C obs).2 = obs.filterMap (closureViolation C) := by
  refine ⟨?_, closureScan_snd C obs⟩
  unfold validate_pipeline_closure
  simp only [closureScan_snd C obs, beq_iff_eq, List.length_eq_zero,
    List.filterMap_eq_nil_iff, closureViolation_eq_none_iff]

/-! ## C1 — exact-model recovery -/

theorem sum_yVals_exact {t0 t1 : ℚ} {s : List (ℕ × ℚ)}
    (h : ∀ q ∈ s, yLin q = t0 + t1 * (q.1 : ℚ)) :
    (yVals s).sum = (s.length : ℚ) * t0 + t1 * (xVals s).sum := by
  induction s with
  | nil => simp [yVals, xVals]
  | cons a l ih =>
    have ha := h a (List.mem_cons_self a l)
    have ihl := ih fun q hq => h q (List.mem_cons_of_mem a hq)
    simp only [yVals, xVals, List.map_cons, List.sum_cons, List.length_cons] at ihl ⊢
    rw [ha, ihl]
    push_cast
    ring

theorem yMean_exact {t0 t1 : ℚ} {s : List (ℕ × ℚ)}
    (h : ∀ q ∈ s, yLin q = t0 + t1 * (q.1 : ℚ)) (hn : s.length ≠ 0) :
    yMean s = t0 + t1 * xMean s := by
  have hn' : (s.length : ℚ) ≠ 0 := Nat.cast_ne_zero.2 hn
  unfold yMean xMean
  rw [sum_yVals_exact h]
  field_simp
  ring

theorem sxy_exact {t0 t1 : ℚ} {s : List (ℕ × ℚ)}
    (h : ∀ q ∈ s, yLin q = t0 + t1 * (q.1 : ℚ)) (hn : s.length ≠ 0) :
    sxy s = t1 * sxx s := by
  have hm := yMean_exact h hn
  unfold sxy sxx
  rw [show (s.map fun q => ((q.1 : ℚ) - xMean s) * (yLin q - yMean s)) =
        s.map fun q => t1 * ((q.1 : ℚ) - xMean s) ^ 2 from
      List.map_congr_left fun q hq => by rw [h q hq, hm]; ring]
  exact List.sum_map_mul_left _ _ _

theorem t1_sec_exact {t0 t1 : ℚ} {s : List (ℕ × ℚ)}
    (h : ∀ q ∈ s, yLin q = t0 + t1 * (q.1 : ℚ)) (hn : s.length ≠ 0)
    (hsxx : sxx s ≠ 0) :
    t1_sec s = t1 := by
  unfold t1_sec
  rw [sxy_exact h hn, mul_div_assoc, div_self hsxx, mul_one]

theorem t0_sec_exact {t0 t1 : ℚ} {s : List (ℕ × ℚ)}
    (h : ∀ q ∈ s, yLin q = t0 + t1 * (q.1 : ℚ)) (hn : s.length ≠ 0)
    (hsxx : sxx s ≠ 0) :
    t0_sec s = t0 := by
  unfold t0_sec
  rw [t1_sec_exact h hn hsxx, yMean_exact h hn]
  ring

theorem ssRes_exact {t0 t1 : ℚ} {s : List (ℕ × ℚ)}
    (h : ∀ q ∈ s, yLin q = t0 + t1 * (q.1 : ℚ)) (hn : s.length ≠ 0)
    (hsxx : sxx s ≠ 0) :
    ssRes s = 0 := by
  unfold ssRes
  rw [show (s.map fun q => (yLin q - (t0_sec s + t1_sec s * (q.1 : ℚ))) ^ 2) =
        s.map fun _ => (0 : ℚ) from
      List.map_congr_left fun q hq => by
        rw [h q hq, t0_sec_exact h hn hsxx, t1_sec_exact h hn hsxx]; ring]
  simp

theorem rSquared_exact {t0 t1 : ℚ} {s : List (ℕ × ℚ)}
    (h : ∀ q ∈ s, yLin q = t0 + t1 * (q.1 : ℚ)) (hn : s.length ≠ 0)
    (hsxx : sxx s ≠ 0) :
    rSquared s = 1 := by
  unfold rSquared
  rw [ssRes_exact h hn hsxx, zero_div, sub_zero]

theorem sxx_pos {s : List (ℕ × ℚ)} {a b : ℕ × ℚ}
    (ha : a ∈ s) (hb : b ∈ s) (hab : a.1 ≠ b.1) : 0 < sxx s := by
  have key : ∃ c ∈ s, ((c.1 : ℚ) - xMean s) ≠ 0 := by
    by_cases h1 : ((a.1 : ℚ) - xMean s) = 0
    · refine ⟨b, hb, fun h2 => hab ?_⟩
      have : (a.1 : ℚ) = (b.1 : ℚ) := by
        have e1 := sub_eq_zero.1 h1
        have e2 := sub_eq_zero.1 h2
        rw [e1, e2]
      exact_mod_cast this
    · exact ⟨a, ha, h1⟩
  obtain ⟨c, hc, hcne⟩ := key
  have hterm : 0 < ((c.1 : ℚ) - xMean s) ^ 2 :=
    (sq_nonneg _).lt_of_ne' (pow_ne_zero 2 hcne)
  have hmem : ((c.1 : ℚ) - xMean s) ^ 2 ∈ s.map fun q => ((q.1 : ℚ) - xMean s) ^ 2 :=
    List.mem_map_of_mem _ hc
  have hle := List.single_le_sum
    (l := s.map fun q => ((q.1 : ℚ) - xMean s) ^ 2)
    (fun x hx => by
      obtain ⟨q, _, rfl⟩ := List.mem_map.1 hx
      exact sq_nonneg _) _ hmem
  exact lt_of_lt_of_le hterm hle

/-- C1: for every observation set whose throughputs are generated exactly
from `T(p) = p/(t0 + t1·p)` and which meets the minimum data requirement
(at least 5 observations, at least 2 distinct pipeline depths), the fitter
recovers `t0` and `t1` exactly (reported in microseconds/batch and
nanoseconds/op respectively) and reports `R² = 1`. -/
theorem exact_model_fit_recovery
    (t0 t1 : ℚ) (sqrtQ : ℚ → ℚ) (tCrit : ℕ → ℚ) (obs : List Observation)
    (hlen : 5 ≤ obs.length)
    (hdist : ∃ o1 ∈ obs, ∃ o2 ∈ obs, o1.pipeline_depth ≠ o2.pipeline_depth)
    (hexact : ∀ o ∈ obs, 0 < o.pipeline_depth ∧ 0 < o.rps ∧
      o.rps = (o.pipeline_depth : ℚ) / (t0 + t1 * (o.pipeline_depth : ℚ))) :
    (fit_batched_service_model sqrtQ tCrit obs).map FitResult.t0_us_per_batch
        = some (t0 * 1000000) ∧
    (fit_batched_service_model sqrtQ tCrit obs).map FitResult.t1_ns_per_op
        = some (t1 * 1000000000) ∧
    (fit_batched_service_model sqrtQ tCrit obs).map FitResult.r_squared
        = some 1 := by
  have hsmem : ∀ q ∈ sortPoints (dataPoints obs), ∃ o ∈ obs,
      q = (o.pipeline_depth, o.rps) := by
    intro q hq
    have hq2 : q ∈ (dataPoints obs).insertionSort tupleLe := hq
    have hq' : q ∈ dataPoints obs := (List.mem_insertionSort tupleLe).1 hq2
    obtain ⟨o, ho, rfl⟩ := List.mem_map.1 hq'
    exact ⟨o, ho, rfl⟩
  have hy : ∀ q ∈ sortPoints (dataPoints obs), yLin q = t0 + t1 * (q.1 : ℚ) := by
    intro q hq
    obtain ⟨o, ho, rfl⟩ := hsmem q hq
    obtain ⟨hp, hr, he⟩ := hexact o ho
    have hpQ : ((o.pipeline_depth : ℕ) : ℚ) ≠ 0 := Nat.cast_ne_zero.2 hp.ne'
    have hden : t0 + t1 * (o.pipeline_depth : ℚ) ≠ 0 := by
      intro h0
      rw [h0, div_zero] at he
      exact absurd (he ▸ hr) (lt_irrefl 0)
    unfold yLin
    rw [he, div_div_eq_mul_div, mul_comm, mul_div_assoc, div_self hpQ, mul_one]
  have hslen : (sortPoints (dataPoints obs)).length = obs.length := by
    unfold sortPoints dataPoints
    rw [List.length_insertionSort, List.length_map]
  have hn : (sortPoints (dataPoints obs)).length ≠ 0 := by omega
  have hsxx : sxx (sortPoints (dataPoints obs)) ≠ 0 := by
    obtain ⟨o1, ho1, o2, ho2, hne⟩ := hdist
    have h1 : ((o1.pipeline_depth, o1.rps) : ℕ × ℚ) ∈ sortPoints (dataPoints obs) :=
      show _ ∈ (dataPoints obs).insertionSort tupleLe from
        (List.mem_insertionSort tupleLe).2 (List.mem_map_of_mem _ ho1)
    have h2 : ((o2.pipeline_depth, o2.rps) : ℕ × ℚ) ∈ sortPoints (dataPoints obs) :=
      show _ ∈ (dataPoints obs).insertionSort tupleLe from
        (List.mem_insertionSort tupleLe).2 (List.mem_map_of_mem _ ho2)
    exact (sxx_pos h1 h2 hne).ne'
  rw [fit_eq_some sqrtQ tCrit obs (by omega)]
  refine ⟨?_, ?_, ?_⟩ <;> simp only [Option.map_some', Option.some.injEq]
  · show t0_sec (sortPoints (dataPoints obs)) * 1000000 = t0 * 1000000
    rw [t0_sec_exact hy hn hsxx]
  · show t1_sec (sortPoints (dataPoints obs)) * 1000000000 = t1 * 1000000000
    rw [t1_sec_exact hy hn hsxx]
  · show rSquared (sortPoints (dataPoints obs)) = 1
    exact rSquared_exact hy hn hsxx

/-- C1 witness: the dataset `obsConst` is generated exactly from the model
with `t0 = 0`, `t1 = 1`; the fitter recovers both and reports `R² = 1`. -/
theorem exact_model_fit_recovery_witness :
    (fit_batched_service_model sqId tcTwo obsConst).map FitResult.t0_us_per_batch
        = some (0 * 1000000) ∧
    (fit_batched_service_model sqId tcTwo obsConst).map FitResult.t1_ns_per_op
        = some (1 * 1000000000) ∧
    (fit_batched_service_model sqId tcTwo obsConst).map FitResult.r_squared
        = some 1 :=
  exact_model_fit_recovery 0 1 sqId tcTwo obsConst (by decide)
    ⟨⟨1, 1, none⟩, by decide, ⟨2, 1, none⟩, by decide, by decide⟩
    (by intro o ho; fin_cases ho <;> norm_num [obsConst])

/-! ## C5 — R² formula and upper bound -/

theorem ssRes_nonneg (s : List (ℕ × ℚ)) : 0 ≤ ssRes s :=
  List.sum_nonneg fun x hx => by
    obtain ⟨q, _, rfl⟩ := List.mem_map.1 hx
    positivity

theorem ssTot_nonneg (s : List (ℕ × ℚ)) : 0 ≤ ssTot s :=
  List.sum_nonneg fun x hx => by
    obtain ⟨q, _, rfl⟩ := List.mem_map.1 hx
    positivity

theorem sxx_nonneg (s : List (ℕ × ℚ)) : 0 ≤ sxx s :=
  List.sum_nonneg fun x hx => by
    obtain ⟨q, _, rfl⟩ := List.mem_map.1 hx
    positivity

/-- C5: for every input the fitter accepts, the reported `R²` is exactly
`1 - SS_res/SS_tot` computed on the linearized variable `y = p/T` (residuals
`yᵢ - ŷᵢ`, `SS_tot` about the mean of `y`), with no clamping applied, and
this value is at most 1. -/
theorem r_squared_formula_and_bound (sqrtQ : ℚ → ℚ) (tCrit : ℕ → ℚ)
    (obs : List Observation) (r : FitResult)
    (h : fit_batched_service_model sqrtQ tCrit obs = some r) :
    r.r_squared =
      1 - ssRes (sortPoints (dataPoints obs)) / ssTot (sortPoints (dataPoints obs)) ∧
    r.r_squared ≤ 1 := by
  by_cases h5 : obs.length < 5
  · rw [fit_eq_none sqrtQ tCrit obs h5] at h
    exact absurd h (by simp)
  · rw [fit_eq_some sqrtQ tCrit obs h5] at h
    injection h with h
    subst h
    constructor
    · rfl
    · show rSquared (sortPoints (dataPoints obs)) ≤ 1
      unfold rSquared
      have hd := div_nonneg (ssRes_nonneg (sortPoints (dataPoints obs)))
        (ssTot_nonneg (sortPoints (dataPoints obs)))
      linarith

/-- C5 witness: instantiated on the concrete dataset `obsLinear`. -/
theorem r_squared_formula_and_bound_witness :
    fitLinearR.r_squared =
      1 - ssRes (sortPoints (dataPoints obsLinear)) /
            ssTot (sortPoints (dataPoints obsLinear)) ∧
    fitLinearR.r_squared ≤ 1 :=
  r_squared_formula_and_bound sqId tcTwo obsLinear fitLinearR fit_obsLinear

/-! ## C6 — confidence intervals contain the estimates -/

/-- C6: whenever the fitter produces a result, and the external `sqrt` routine
maps nonnegative inputs to nonnegative outputs and the Student-t critical
value is nonnegative (true of `scipy.stats.t.ppf(0.975, df)` for `df ≥ 1`,
i.e. any accepted input has `n ≥ 5 > 2`), each 95% confidence interval
contains its point estimate. -/
theorem confidence_intervals_contain_estimates (sqrtQ : ℚ → ℚ) (tCrit : ℕ → ℚ)
    (obs : List Observation) (r : FitResult)
    (hsq : ∀ q : ℚ, 0 ≤ q → 0 ≤ sqrtQ q)
    (htc : ∀ n : ℕ, 0 ≤ tCrit n)
    (h : fit_batched_service_model sqrtQ tCrit obs = some r) :
    r.t0_confidence_interval.1 ≤ r.t0_us_per_batch ∧
    r.t0_us_per_batch ≤ r.t0_confidence_interval.2 ∧
    r.t1_confidence_interval.1 ≤ r.t1_ns_per_op ∧
    r.t1_ns_per_op ≤ r.t1_confidence_interval.2 := by
  by_cases h5 : obs.length < 5
  · rw [fit_eq_none sqrtQ tCrit obs h5] at h
    exact absurd h (by simp)
  · rw [fit_eq_some sqrtQ tCrit obs h5] at h
    injection h with h
    subst h
    have hmse : 0 ≤ mse (sortPoints (dataPoints obs)) := by
      have hlen : (sortPoints (dataPoints obs)).length = obs.length := by
        unfold sortPoints dataPoints
        rw [List.length_insertionSort, List.length_map]
      have h2 : (0 : ℚ) ≤ ((sortPoints (dataPoints obs)).length : ℚ) - 2 := by
        rw [hlen]
        have : (5 : ℚ) ≤ (obs.length : ℚ) := by exact_mod_cast not_lt.1 h5
        linarith
      exact div_nonneg (ssRes_nonneg _) h2
    have hse0 : 0 ≤ se_t0_sec sqrtQ (sortPoints (dataPoints obs)) := by
      apply hsq
      have ha : (0 : ℚ) ≤ 1 / ((sortPoints (dataPoints obs)).length : ℚ) := by
        positivity
      have hb : (0 : ℚ) ≤ (xMean (sortPoints (dataPoints obs))) ^ 2 /
          sxx (sortPoints (dataPoints obs)) :=
        div_nonneg (sq_nonneg _) (sxx_nonneg _)
      exact mul_nonneg hmse (add_nonneg ha hb)
    have hse1 : 0 ≤ se_t1_sec sqrtQ (sortPoints (dataPoints obs)) := by
      apply hsq
      exact div_nonneg hmse (sxx_nonneg _)
    have htcv := htc ((sortPoints (dataPoints obs)).length - 2)
    have k0 : 0 ≤ tCrit ((sortPoints (dataPoints obs)).length - 2) *
        se_t0_sec sqrtQ (sortPoints (dataPoints obs)) * 1000000 := by
      have := mul_nonneg htcv hse0
      linarith
    have k1 : 0 ≤ tCrit ((sortPoints (dataPoints obs)).length - 2) *
        se_t1_sec sqrtQ (sortPoints (dataPoints obs)) * 1000000000 := by
      have := mul_nonneg htcv hse1
      linarith
    refine ⟨?_, ?_, ?_, ?_⟩ <;> dsimp only <;> linarith

/-- C6 witness: instantiated on the concrete dataset `obsLinear`, with the
identity map for `sqrt` and the constant 2 for the critical value. -/
theorem confidence_intervals_contain_estimates_witness :
    fitLinearR.t0_confidence_interval.1 ≤ fitLinearR.t0_us_per_batch ∧
    fitLinearR.t0_us_per_batch ≤ fitLinearR.t0_confidence_interval.2 ∧
    fitLinearR.t1_confidence_interval.1 ≤ fitLinearR.t1_ns_per_op ∧
    fitLinearR.t1_ns_per_op ≤ fitLinearR.t1_confidence_interval.2 :=
  confidence_intervals_contain_estimates sqId tcTwo obsLinear fitLinearR
    (fun q hq => by simpa [sqId] using hq)
    (fun n => by norm_num [tcTwo])
    fit_obsLinear

/-! ## C7 — saturation-throughput sentinel -/

/-- C7: whenever the fitter produces a result, the derived saturation
throughput equals `1/t1` (expressed in the result's units:
`Tmax_Mops_s = 1000 / t1_ns`) when `t1 > 0`, and is the infinite/undefined
sentinel (`none`, Python `float('inf')`) when `t1 ≤ 0` — no error is raised. -/
theorem tmax_inverse_or_sentinel (sqrtQ : ℚ → ℚ) (tCrit : ℕ → ℚ)
    (obs : List Observation) (r : FitResult)
    (h : fit_batched_service_model sqrtQ tCrit obs = some r) :
    (0 < r.t1_ns_per_op → r.Tmax_Mops_s = some (1000 / r.t1_ns_per_op)) ∧
    (r.t1_ns_per_op ≤ 0 → r.Tmax_Mops_s = none) := by
  by_cases h5 : obs.length < 5
  · rw [fit_eq_none sqrtQ tCrit obs h5] at h
    exact absurd h (by simp)
  · rw [fit_eq_some sqrtQ tCrit obs h5] at h
    injection h with h
    subst h
    dsimp only
    constructor
    · intro hpos
      have ht1 : 0 < t1_sec (sortPoints (dataPoints obs)) := by linarith
      rw [if_pos ht1]
      congr 1
      rw [eq_div_iff (by linarith)]
      field_simp
      ring
    · intro hnp
      have ht1 : ¬ (0 < t1_sec (sortPoints (dataPoints obs))) := by
        intro hc
        linarith
      rw [if_neg ht1]

/-- C7 witness: instantiated on the concrete dataset `obsConst`, whose fitted
`t1` is positive. -/
theorem tmax_inverse_or_sentinel_witness :
    (0 < fitConstR.t1_ns_per_op →
      fitConstR.Tmax_Mops_s = some (1000 / fitConstR.t1_ns_per_op)) ∧
    (fitConstR.t1_ns_per_op ≤ 0 → fitConstR.Tmax_Mops_s = none) :=
  tmax_inverse_or_sentinel sqId tcTwo obsConst fitConstR fit_obsConst

/-! ## C10 — permutation invariance -/

theorem sortPoints_sorted (l : List (ℕ × ℚ)) :
    List.Sorted tupleLe (sortPoints l) :=
  List.sorted_insertionSort tupleLe l

theorem sortPoints_eq_of_perm {l1 l2 : List (ℕ × ℚ)} (h : l1.Perm l2) :
    sortPoints l1 = sortPoints l2 := by
  have h1 : (sortPoints l1).Perm (sortPoints l2) :=
    (List.perm_insertionSort tupleLe l1).trans
      (h.trans (List.perm_insertionSort tupleLe l2).symm)
  exact List.eq_of_perm_of_sorted h1 (sortPoints_sorted l1) (sortPoints_sorted l2)

theorem raw_data_sorted_by_depth (l : List (ℕ × ℚ)) :
    List.Sorted (fun a b : ℚ × ℚ => a.1 ≤ b.1)
      ((sortPoints l).map fun q => ((q.1 : ℚ), q.2)) := by
  refine List.Pairwise.map _ ?_ (sortPoints_sorted l)
  intro a b hab
  show ((a.1 : ℚ), a.2).1 ≤ ((b.1 : ℚ), b.2).1
  dsimp only
  rcases hab with h | ⟨h, _⟩
  · exact_mod_cast h.le
  · exact_mod_cast h.le

/-- C10: the fit result is invariant under permutation of the input
observations — the fitter sorts the collected points by pipeline depth
before computing anything — and the `raw_data` listing of any produced
result is sorted ascending by pipeline depth. -/
theorem fit_perm_invariant (sqrtQ : ℚ → ℚ) (tCrit : ℕ → ℚ)
    (obs1 obs2 : List Observation) (hperm : obs1.Perm obs2) :
    fit_batched_service_model sqrtQ tCrit obs1 =
      fit_batched_service_model sqrtQ tCrit obs2 ∧
    List.Sorted (fun a b : ℚ × ℚ => a.1 ≤ b.1)
      (rawDataOf (fit_batched_service_model sqrtQ tCrit obs1)) := by
  have hlen := hperm.length_eq
  by_cases h5 : obs1.length < 5
  · have h5' : obs2.length < 5 := hlen ▸ h5
    rw [fit_eq_none sqrtQ tCrit obs1 h5, fit_eq_none sqrtQ tCrit obs2 h5']
    exact ⟨rfl, List.sorted_nil⟩
  · have h5' : ¬ obs2.length < 5 := hlen ▸ h5
    have hp : (dataPoints obs1).Perm (dataPoints obs2) := hperm.map _
    have hsorteq := sortPoints_eq_of_perm hp
    have hdlen : (dataPoints obs1).length = (dataPoints obs2).length :=
      hp.length_eq
    rw [fit_eq_some sqrtQ tCrit obs1 h5, fit_eq_some sqrtQ tCrit obs2 h5']
    constructor
    · rw [hsorteq, hdlen]
    · exact raw_data_sorted_by_depth (dataPoints obs1)

/-- C10 witness: `obsShuffled` is a permutation of `obsLinear`; both fits
agree and the raw-data listing is sorted ascending by pipeline depth. -/
theorem fit_perm_invariant_witness :
    fit_batched_service_model sqId tcTwo obsShuffled =
      fit_batched_service_model sqId tcTwo obsLinear ∧
    List.Sorted (fun a b : ℚ × ℚ => a.1 ≤ b.1)
      (rawDataOf (fit_batched_service_model sqId tcTwo obsShuffled)) :=
  fit_perm_invariant sqId tcTwo obsShuffled obsLinear (by decide)
